import Mathlib

/-!
Shallow embedding of the terminal overlay / prediction engine
(`terminaloverlay.cpp`) of the mosh repository, together with theorems
settling the frozen claims about it.

Conventions of the embedding:
* machine `uint64_t` values are `Nat`, with subtraction modelled modulo
  2^64 (`usub`) exactly where the C++ subtracts unsigned values;
* C++ `int` values are `Int`; the conversion of a `uint64_t` to `int`
  (in `OverlayManager::wait_time`) is modelled as truncation to 32 bits
  with twos-complement reinterpretation (`toInt32`);
* C++ `double` arithmetic of the RTT estimator is modelled by exact
  rational arithmetic over `ℚ`;
* `assert(...)` statements compile to nothing in release builds and are
  therefore not part of the embedded behaviour;
* the clock `timestamp()` is passed explicitly as a parameter `now`.
-/

namespace MoshOverlay

/-- 2^64, the modulus of `uint64_t` arithmetic. -/
def U64 : Nat := 18446744073709551616

/-- `uint64_t` subtraction `a - b`, i.e. `(a - b) mod 2^64` for `a b < 2^64`. -/
def usub (a b : Nat) : Nat := (a % U64 + (U64 - b % U64)) % U64

/-- INT_MAX for a 32-bit `int`. -/
def INT_MAX : Int := 2147483647

/-- Reinterpret the low 32 bits of a `uint64_t` value as a signed 32-bit
`int` (the implementation-defined, in practice universal, behaviour of the
C++ conversion in `OverlayManager::wait_time`). -/
def toInt32 (v : Nat) : Int :=
  let m : Nat := v % 4294967296
  if m < 2147483648 then (m : Int) else (m : Int) - 4294967296

/-- Graphic renditions of a terminal cell (`Cell::renditions`). -/
structure Renditions where
  bold : Bool
  underlined : Bool
  foreground_color : Int
  background_color : Int
deriving DecidableEq, Repr

/-- A terminal cell: wide-character contents, display width and renditions.
The `Cell` type itself belongs to the external terminal emulator; per the
spec it carries `contents`, `width`, `renditions` and value equality. -/
structure Cell where
  contents : List Int
  width : Int
  renditions : Renditions
deriving DecidableEq, Repr

/-- Modelled from the spec: the `Cell(background_color)`
constructor of the emulator (external to the excerpt) produces an empty cell of width 1
whose renditions are all off except the given background colour. -/
def cellDefault (bg : Int) : Cell :=
  { contents := []
    width := 1
    renditions := { bold := false, underlined := false
                    foreground_color := 0, background_color := bg } }

/-- The draw state of the framebuffer: geometry, cursor and modes
(the slice of `Framebuffer::ds` the overlay code uses). -/
structure DrawState where
  width : Int
  height : Int
  cursor_row : Int
  cursor_col : Int
  cursor_visible : Bool
  origin_mode : Bool
deriving DecidableEq, Repr

/-- Modelled from the spec: the authoritative framebuffer of the external
terminal emulator, a grid of cells plus a draw state, accessed through
`get_cell` / `get_mutable_cell`. -/
structure Framebuffer where
  ds : DrawState
  rows : List (List Cell)
deriving DecidableEq, Repr

/-- `fb.get_cell(r, c)`: read a cell of the grid. -/
def getCell (fb : Framebuffer) (r c : Int) : Cell :=
  ((fb.rows.getD r.toNat []).getD c.toNat (cellDefault 0))

/-- Write through `fb.get_mutable_cell(r, c)`. -/
def setCell (fb : Framebuffer) (r c : Int) (cell : Cell) : Framebuffer :=
  { fb with rows := fb.rows.set r.toNat ((fb.rows.getD r.toNat []).set c.toNat cell) }

/-- Validity of an overlay element. -/
inductive Validity where
  | Pending
  | Correct
  | IncorrectOrExpired
deriving DecidableEq, Repr

/-- `ConditionalCursorMove`: a predicted cursor position.  `prediction_time`
is the base-class field; modelled from the spec, the `OverlayElement`
constructor (in the header, not in the excerpt) stamps it with the clock at
creation. -/
structure CondCursorMove where
  expiration_time : Nat
  prediction_time : Nat
  new_row : Int
  new_col : Int
deriving DecidableEq, Repr

/-- `ConditionalOverlayCell`: a predicted cell overwrite.  `prediction_time`
as in `CondCursorMove`; modelled from the spec, the constructor (in the
header) stores its final argument `*existing_cell` as `original_contents`. -/
structure CondOverlayCell where
  expiration_time : Nat
  prediction_time : Nat
  row : Int
  col : Int
  replacement : Cell
  flag : Bool
  original_contents : Cell
deriving DecidableEq, Repr

/-- A plain `OverlayCell` as used by the notification engine. -/
structure PlainOverlayCell where
  expiration_time : Nat
  row : Int
  col : Int
  replacement : Cell
  flag : Bool
deriving DecidableEq, Repr

/-- An element of the prediction engine element list: either a conditional cursor
move or a conditional overlay cell (the two concrete subclasses). -/
inductive PredItem where
  | cursor (c : CondCursorMove)
  | cell (c : CondOverlayCell)
deriving DecidableEq, Repr

/-- `ConditionalCursorMove::get_validity`. -/
def condCursorValidity (now : Nat) (fb : Framebuffer) (c : CondCursorMove) : Validity :=
  if fb.ds.height ≤ c.new_row ∨ fb.ds.width ≤ c.new_col then
    Validity.IncorrectOrExpired
  else if now < c.expiration_time then
    Validity.Pending
  else if fb.ds.cursor_col = c.new_col ∧ fb.ds.cursor_row = c.new_row then
    Validity.Correct
  else
    Validity.IncorrectOrExpired

/-- `ConditionalOverlayCell::get_validity`. -/
def condCellValidity (now : Nat) (fb : Framebuffer) (c : CondOverlayCell) : Validity :=
  if fb.ds.height ≤ c.row ∨ fb.ds.width ≤ c.col then
    Validity.IncorrectOrExpired
  else
    let current := getCell fb c.row c.col
    if now < c.expiration_time ∧ current = c.original_contents then
      Validity.Pending
    else if current = c.replacement then
      Validity.Correct
    else
      Validity.IncorrectOrExpired

/-- Virtual dispatch of `get_validity` over a prediction element. -/
def validity (now : Nat) (fb : Framebuffer) : PredItem → Validity
  | PredItem.cursor c => condCursorValidity now fb c
  | PredItem.cell c => condCellValidity now fb c

/-- `OverlayCell::apply`: bounds-checked conditional overwrite of one cell;
when `flag` is set the freshly written cell is underlined. -/
def cellApply (row col : Int) (replacement : Cell) (flag : Bool)
    (fb : Framebuffer) : Framebuffer :=
  if fb.ds.height ≤ row ∨ fb.ds.width ≤ col then
    fb
  else if getCell fb row col = replacement then
    fb
  else
    let fb1 := setCell fb row col replacement
    if flag then
      setCell fb1 row col { replacement with renditions := { replacement.renditions with underlined := true } }
    else
      fb1

/-- `CursorMove::apply`: the asserts are debug-only; in release the cursor is
moved unconditionally.  Modelled from the spec: the emulator functions
`ds.move_row(r, false)` / `ds.move_col(c, false, false)` (external code) set
the cursor row/column to the given absolute position. -/
def cursorMoveApply (new_row new_col : Int) (fb : Framebuffer) : Framebuffer :=
  { fb with ds := { fb.ds with cursor_row := new_row, cursor_col := new_col } }

/-- Virtual dispatch of `apply` over a prediction element
(`ConditionalOverlayCell` inherits `OverlayCell::apply`,
`ConditionalCursorMove` inherits `CursorMove::apply`). -/
def itemApply (e : PredItem) (fb : Framebuffer) : Framebuffer :=
  match e with
  | PredItem.cursor c => cursorMoveApply c.new_row c.new_col fb
  | PredItem.cell c => cellApply c.row c.col c.replacement c.flag fb

/-- `OverlayEngine::apply` for the prediction engine: apply every element in
list order. -/
def predApply (els : List PredItem) (fb : Framebuffer) : Framebuffer :=
  els.foldl (fun f e => itemApply e f) fb

/-- State of `PredictionEngine`: element list, score, Jacobson estimator
state (`SRTT`, `RTTVAR`, `RTT_hit`) and the underline-flagging bit. -/
structure PredictionEngine where
  elements : List PredItem
  score : Int
  SRTT : ℚ
  RTTVAR : ℚ
  RTT_hit : Bool
  flagging : Bool
deriving DecidableEq, Repr

/-- The `prediction_time` base-class field of a prediction element. -/
def predictionTimeOf : PredItem → Nat
  | PredItem.cursor c => c.prediction_time
  | PredItem.cell c => c.prediction_time

/-- The `expiration_time` base-class field of a prediction element. -/
def expirationOf : PredItem → Nat
  | PredItem.cursor c => c.expiration_time
  | PredItem.cell c => c.expiration_time

/-- One RTT sample fed into the estimator, exactly as in
`PredictionEngine::cull`: the accumulator is `(RTT_hit, SRTT, RTTVAR)`. -/
def rttUpdate (acc : Bool × ℚ × ℚ) (R : ℚ) : Bool × ℚ × ℚ :=
  match acc with
  | (false, _, _) => (true, R, R / 2)
  | (true, s, v) =>
      (true, (1 - 1/8) * s + (1/8) * R, (1 - 1/4) * v + (1/4) * |s - R|)

/-- The estimator step in the wording of the spec: first measurement sets
`SRTT = R`, `RTTVAR = R/2`; afterwards `RTTVAR = (3/4)·RTTVAR + (1/4)·|SRTT − R|`
and `SRTT = (7/8)·SRTT + (1/8)·R`. -/
def estimatorStep (acc : Bool × ℚ × ℚ) (R : ℚ) : Bool × ℚ × ℚ :=
  match acc with
  | (false, _, _) => (true, R, R / 2)
  | (true, s, v) =>
      (true, (7/8) * s + (1/8) * R, (3/4) * v + (1/4) * |s - R|)

/-- The loop body of `PredictionEngine::cull`: walk the elements, feeding an
RTT sample `R = now − prediction_time` for each `Correct` element and keeping
exactly the `Pending` ones. -/
def cullLoop (now : Nat) (fb : Framebuffer) :
    List PredItem → Bool × ℚ × ℚ → List PredItem × (Bool × ℚ × ℚ)
  | [], acc => ([], acc)
  | e :: rest, acc =>
      let acc1 := if validity now fb e = Validity.Correct then
          rttUpdate acc ((usub now (predictionTimeOf e) : Nat) : ℚ)
        else acc
      let r := cullLoop now fb rest acc1
      if validity now fb e = Validity.Pending then (e :: r.1, r.2) else r

/-- `PredictionEngine::cull`. -/
def cull (now : Nat) (fb : Framebuffer) (st : PredictionEngine) : PredictionEngine :=
  let r := cullLoop now fb st.elements (st.RTT_hit, st.SRTT, st.RTTVAR)
  { st with
    elements := r.1
    RTT_hit := r.2.1
    SRTT := r.2.2.1
    RTTVAR := r.2.2.2
    flagging :=
      if 150 < r.2.2.1 then true
      else if r.2.2.1 < 100 then false
      else st.flagging }

/-- The loop of `PredictionEngine::calculate_score`: returns the final score
together with a flag saying whether `clear()` was executed. -/
def calcLoop (now : Nat) (fb : Framebuffer) : Int → List PredItem → Int × Bool
  | s, [] => (s, false)
  | s, e :: rest =>
      match validity now fb e with
      | Validity.Pending => calcLoop now fb s rest
      | Validity.Correct => calcLoop now fb (s + 1) rest
      | Validity.IncorrectOrExpired => (0, true)

/-- `PredictionEngine::calculate_score`. -/
def calculateScore (now : Nat) (fb : Framebuffer) (st : PredictionEngine) : PredictionEngine :=
  let r := calcLoop now fb st.score st.elements
  { st with score := r.1, elements := if r.2 then [] else st.elements }

/-- `PredictionEngine::prediction_len`: `lrint(ceil(1.25·SRTT + 8·RTTVAR))`
stored in a `uint64_t` and clamped to `[20, 2000]`. -/
def predictionLen (st : PredictionEngine) : Nat :=
  let rto : Nat := ((⌈(1.25 : ℚ) * st.SRTT + 8 * st.RTTVAR⌉ % (U64 : Int))).toNat
  if rto < 20 then 20 else if 2000 < rto then 2000 else rto

/-- `PredictionEngine::new_user_byte`.  The byte is the C++ `char` value
(signed).  The front element is required to be a cursor move by the debug assertion of the source; a non-cursor front (debug-assert territory) is modelled as
leaving the engine unchanged apart from the possible initial prepend. -/
def newUserByte (b : Int) (now : Nat) (fb : Framebuffer) (st : PredictionEngine) :
    PredictionEngine :=
  let els :=
    if st.elements.isEmpty then
      PredItem.cursor { expiration_time := now + predictionLen st
                        prediction_time := now
                        new_row := fb.ds.cursor_row
                        new_col := fb.ds.cursor_col } :: st.elements
    else st.elements
  match els with
  | PredItem.cursor ccm :: rest =>
      if fb.ds.height ≤ ccm.new_row ∨ fb.ds.width ≤ ccm.new_col then
        { st with elements := PredItem.cursor ccm :: rest }
      else if (0x20 ≤ b ∧ b ≤ 0x7E) ∧ ccm.new_col < fb.ds.width - 2 then
        let existing := getCell fb ccm.new_row ccm.new_col
        let coc : CondOverlayCell :=
          { expiration_time := now + predictionLen st
            prediction_time := now
            row := ccm.new_row
            col := ccm.new_col
            replacement := { existing with contents := [b] }
            flag := st.flagging
            original_contents := existing }
        let ccm2 := { ccm with new_col := ccm.new_col + 1
                               expiration_time := now + predictionLen st }
        { st with elements := PredItem.cursor ccm2 :: rest ++ [PredItem.cell coc] }
      else
        { st with elements := [], score := 0 }
  | other => { st with elements := other }

/-- State of `NotificationEngine`. -/
structure NotificationEngine where
  needs_render : Bool
  last_word : Nat
  last_render : Nat
  message : List Int
  message_expiration : Nat
  elements : List PlainOverlayCell
deriving DecidableEq, Repr

/-- `NotificationEngine::server_ping`. -/
def serverPing (t : Nat) (ne : NotificationEngine) : NotificationEngine :=
  let ne1 := if 4000 < usub t ne.last_word then { ne with needs_render := true } else ne
  { ne1 with last_word := t }

/-- The early-return guard of `NotificationEngine::render_notification`:
the render is skipped exactly when less than 250 ms have passed since the
last render and no render is forced. -/
def renderSkipped (now : Nat) (ne : NotificationEngine) : Bool :=
  decide (usub now ne.last_render < 250) && !ne.needs_render

/-- The banner background cell painted across row 0 by
`NotificationEngine::apply`. -/
def notificationBar : Cell :=
  let c := cellDefault 0
  { c with contents := [0x20]
           renditions := { c.renditions with foreground_color := 37
                                             background_color := 44 } }

/-- `NotificationEngine::apply`: nothing if no elements; otherwise paint the
bar across the top row, hide the cursor if it lives on row 0, then apply the
overlay cells. -/
def notifApply (els : List PlainOverlayCell) (fb : Framebuffer) : Framebuffer :=
  if els.isEmpty then fb
  else
    let fb1 := (List.range fb.ds.width.toNat).foldl
      (fun f i => setCell f 0 (i : Int) notificationBar) fb
    let fb2 := if fb1.ds.cursor_row = 0 then
        { fb1 with ds := { fb1.ds with cursor_visible := false } }
      else fb1
    els.foldl (fun f e => cellApply e.row e.col e.replacement e.flag f) fb2

/-- State of `OverlayManager`: it owns the two engines. -/
structure OverlayManager where
  predictions : PredictionEngine
  notifications : NotificationEngine
deriving DecidableEq, Repr

/-- `OverlayManager::apply`: score, cull, apply predictions only when
`score > 3`, then apply notifications.  Returns the updated manager and the
resulting framebuffer. -/
def omApply (now : Nat) (om : OverlayManager) (fb : Framebuffer) :
    OverlayManager × Framebuffer :=
  let p1 := calculateScore now fb om.predictions
  let p2 := cull now fb p1
  let fb1 := if 3 < p2.score then predApply p2.elements fb else fb
  let fb2 := notifApply om.notifications.elements fb1
  ({ om with predictions := p2 }, fb2)

/-- The minimum-expiration loop of `OverlayManager::wait_time`: fold of the
element expirations of both engines starting from `uint64_t(-1)`. -/
def minExpiry (om : OverlayManager) : Nat :=
  (om.notifications.elements.map (fun e => e.expiration_time)
      ++ om.predictions.elements.map (fun e => expirationOf e)).foldl
    (fun acc e => if e < acc then e else acc) (U64 - 1)

/-- `OverlayManager::wait_time`. -/
def waitTime (now : Nat) (om : OverlayManager) : Int :=
  let ret := toInt32 (usub (minExpiry om) now)
  if ret < 0 then INT_MAX else ret

/-! ### Concrete fixtures used by witnesses and counterexamples -/

/-- A 3×3 framebuffer of default cells with the cursor at (1, 1). -/
def fb3 : Framebuffer :=
  { ds := { width := 3, height := 3, cursor_row := 1, cursor_col := 1,
            cursor_visible := true, origin_mode := false }
    rows := [[cellDefault 0, cellDefault 0, cellDefault 0],
             [cellDefault 0, cellDefault 0, cellDefault 0],
             [cellDefault 0, cellDefault 0, cellDefault 0]] }

/-- A 3×5 framebuffer of default cells with the cursor at (1, 1). -/
def fb5 : Framebuffer :=
  { ds := { width := 5, height := 3, cursor_row := 1, cursor_col := 1,
            cursor_visible := true, origin_mode := false }
    rows := [[cellDefault 0, cellDefault 0, cellDefault 0, cellDefault 0, cellDefault 0],
             [cellDefault 0, cellDefault 0, cellDefault 0, cellDefault 0, cellDefault 0],
             [cellDefault 0, cellDefault 0, cellDefault 0, cellDefault 0, cellDefault 0]] }

/-- A freshly constructed prediction engine: no elements, zero score, zero
estimator state. -/
def engine0 : PredictionEngine :=
  { elements := [], score := 0, SRTT := 0, RTTVAR := 0,
    RTT_hit := false, flagging := false }

/-- A quiescent notification engine with no elements. -/
def notif0 : NotificationEngine :=
  { needs_render := false, last_word := 0, last_render := 0, message := [],
    message_expiration := 0, elements := [] }

/-! ### Claims C2 and C3: validity of the conditional overlay elements -/

/-- C2 (amended): for an in-bounds target, `ConditionalCursorMove::get_validity`
returns `Pending` whenever the clock is before `expiration_time` — even when
the cursor is already at the target; once the clock has reached
`expiration_time` it returns `Correct` if the cursor is at the target and
`IncorrectOrExpired` otherwise. -/
theorem condCursorValidity_characterization (now : Nat) (fb : Framebuffer)
    (c : CondCursorMove)
    (hrow : c.new_row < fb.ds.height) (hcol : c.new_col < fb.ds.width) :
    (now < c.expiration_time → condCursorValidity now fb c = Validity.Pending) ∧
    (c.expiration_time ≤ now →
      ((fb.ds.cursor_row = c.new_row ∧ fb.ds.cursor_col = c.new_col) →
        condCursorValidity now fb c = Validity.Correct) ∧
      (¬(fb.ds.cursor_row = c.new_row ∧ fb.ds.cursor_col = c.new_col) →
        condCursorValidity now fb c = Validity.IncorrectOrExpired)) := by
  unfold condCursorValidity
  rw [if_neg (by omega)]
  refine ⟨fun h => ?_, fun h => ⟨fun hc => ?_, fun hc => ?_⟩⟩
  · rw [if_pos h]
  · rw [if_neg (by omega), if_pos ⟨hc.2, hc.1⟩]
  · rw [if_neg (by omega), if_neg (by tauto)]

/-- Witness for the C2 theorem at a concrete input: in-bounds target, clock
before expiration. -/
theorem condCursorValidity_witness :
    condCursorValidity 50 fb3
      { expiration_time := 100, prediction_time := 0, new_row := 1, new_col := 1 }
      = Validity.Pending :=
  (condCursorValidity_characterization 50 fb3
      { expiration_time := 100, prediction_time := 0, new_row := 1, new_col := 1 }
      (by decide) (by decide)).1 (by decide)

/-- Counterexample to C2 as stated: the cursor is already at the in-bounds
target, yet because the clock is before expiration the code returns
`Pending`, not `Correct`. -/
theorem condCursorValidity_counterexample :
    fb3.ds.cursor_row = (1 : Int) ∧ fb3.ds.cursor_col = (1 : Int) ∧
    (1 : Int) < fb3.ds.height ∧ (1 : Int) < fb3.ds.width ∧
    condCursorValidity 50 fb3
      { expiration_time := 100, prediction_time := 0, new_row := 1, new_col := 1 }
      = Validity.Pending ∧
    condCursorValidity 50 fb3
      { expiration_time := 100, prediction_time := 0, new_row := 1, new_col := 1 }
      ≠ Validity.Correct := by decide

/-- C3 (amended): for an in-bounds cell, `ConditionalOverlayCell::get_validity`
returns `Pending` whenever the clock is before `expiration_time` and the
framebuffer cell equals `original_contents` — this takes priority even when
the cell also equals `replacement`; otherwise it returns `Correct` when the
cell equals `replacement` and `IncorrectOrExpired` when it does not. -/
theorem condCellValidity_characterization (now : Nat) (fb : Framebuffer)
    (c : CondOverlayCell)
    (hrow : c.row < fb.ds.height) (hcol : c.col < fb.ds.width) :
    ((now < c.expiration_time ∧ getCell fb c.row c.col = c.original_contents) →
       condCellValidity now fb c = Validity.Pending) ∧
    (¬(now < c.expiration_time ∧ getCell fb c.row c.col = c.original_contents) →
      ((getCell fb c.row c.col = c.replacement →
          condCellValidity now fb c = Validity.Correct) ∧
       (getCell fb c.row c.col ≠ c.replacement →
          condCellValidity now fb c = Validity.IncorrectOrExpired))) := by
  unfold condCellValidity
  rw [if_neg (by omega)]
  refine ⟨fun h => ?_, fun h => ⟨fun hc => ?_, fun hc => ?_⟩⟩
  · rw [if_pos h]
  · rw [if_neg h, if_pos hc]
  · rw [if_neg h, if_neg hc]

/-- Witness for the C3 theorem at a concrete input. -/
theorem condCellValidity_witness :
    condCellValidity 50 fb3
      { expiration_time := 100, prediction_time := 0, row := 1, col := 1,
        replacement := cellDefault 7, flag := false,
        original_contents := cellDefault 0 }
      = Validity.Pending :=
  (condCellValidity_characterization 50 fb3
      { expiration_time := 100, prediction_time := 0, row := 1, col := 1,
        replacement := cellDefault 7, flag := false,
        original_contents := cellDefault 0 }
      (by decide) (by decide)).1 (by decide)

/-- Counterexample to C3 as stated: the framebuffer cell equals
`replacement` (which here equals `original_contents`), yet because the
clock is before expiration the code returns `Pending`, not `Correct`. -/
theorem condCellValidity_counterexample :
    getCell fb3 1 1 =
      (cellDefault 0) ∧
    condCellValidity 50 fb3
      { expiration_time := 100, prediction_time := 0, row := 1, col := 1,
        replacement := cellDefault 0, flag := false,
        original_contents := cellDefault 0 }
      = Validity.Pending ∧
    condCellValidity 50 fb3
      { expiration_time := 100, prediction_time := 0, row := 1, col := 1,
        replacement := cellDefault 0, flag := false,
        original_contents := cellDefault 0 }
      ≠ Validity.Correct := by decide

/-! ### Claim C4: out-of-bounds behaviour of the apply methods -/

/-- C4 (amended): `OverlayCell::apply` is a defensive no-op when its target
is out of bounds; but `CursorMove::apply` has no release-mode bounds check —
its asserts compile away and it moves the cursor to the target
unconditionally. -/
theorem overlay_apply_bounds (fb : Framebuffer) (row col : Int) (repl : Cell)
    (flag : Bool) (nr nc : Int)
    (h : fb.ds.height ≤ row ∨ fb.ds.width ≤ col) :
    cellApply row col repl flag fb = fb ∧
    (cursorMoveApply nr nc fb).ds.cursor_row = nr ∧
    (cursorMoveApply nr nc fb).ds.cursor_col = nc :=
  ⟨by unfold cellApply; rw [if_pos h], rfl, rfl⟩

/-- Witness for the C4 theorem at a concrete input: out-of-bounds overlay cell
write is a no-op. -/
theorem overlay_apply_bounds_witness :
    cellApply 5 7 (cellDefault 0) false fb3 = fb3 ∧
    (cursorMoveApply 5 7 fb3).ds.cursor_row = 5 ∧
    (cursorMoveApply 5 7 fb3).ds.cursor_col = 7 :=
  overlay_apply_bounds fb3 5 7 (cellDefault 0) false 5 7 (Or.inl (by decide))

/-- Counterexample to C4 as stated: a `CursorMove` whose target (5, 7) lies
outside the 3×3 framebuffer still moves the cursor when applied. -/
theorem cursor_move_counterexample :
    fb3.ds.height ≤ (5 : Int) ∧ fb3.ds.width ≤ (7 : Int) ∧
    (cursorMoveApply 5 7 fb3).ds.cursor_row ≠ fb3.ds.cursor_row ∧
    cursorMoveApply 5 7 fb3 ≠ fb3 := by decide

/-! ### Claim C5: server_ping -/

/-- C5 (amended): `server_ping(t)` always updates `last_word` to `t`, and
sets `needs_render` exactly when the 64-bit jump `t − last_word` is
strictly greater than 4000 ms; once `needs_render` is set the render guard
of `render_notification` never skips, whatever the elapsed time since the
last render. -/
theorem server_ping_behavior (t : Nat) (ne : NotificationEngine) :
    (serverPing t ne).last_word = t ∧
    (serverPing t ne).needs_render
      = (ne.needs_render || decide (4000 < usub t ne.last_word)) ∧
    (∀ n : Nat, (serverPing t ne).needs_render = true →
      renderSkipped n (serverPing t ne) = false) := by
  unfold serverPing renderSkipped
  by_cases h : 4000 < usub t ne.last_word
  · simp [h]
  · simp [h]
    exact fun n hn _ => hn

/-- Witness for the C5 theorem at a concrete input: a 5000 ms jump forces a
render even 100 ms after the previous one. -/
theorem server_ping_witness :
    (serverPing 5000 notif0).last_word = 5000 ∧
    renderSkipped 5100 (serverPing 5000 notif0) = false := by
  have h := server_ping_behavior 5000 notif0
  exact ⟨h.1, h.2.2 5100 (by decide)⟩

/-- Counterexample to C5 as stated: a jump of exactly 4000 ms (which is
"at least 4000 ms") does not set `needs_render`, because the code tests
with a strict inequality. -/
theorem server_ping_counterexample :
    4000 ≤ usub 4000 notif0.last_word ∧
    (serverPing 4000 notif0).needs_render = false := by decide

/-! ### Claim C9: calculate_score -/

/-- The score loop: it returns the score accumulated over `Correct`
elements, zeroed if any element is `IncorrectOrExpired`, together with the
flag saying whether the walk stopped at such an element. -/
theorem calcLoop_characterization (now : Nat) (fb : Framebuffer)
    (l : List PredItem) (s : Int) :
    calcLoop now fb s l =
      (if l.any (fun e => decide (validity now fb e = Validity.IncorrectOrExpired)) then 0
       else s + (l.countP (fun e => decide (validity now fb e = Validity.Correct)) : Int),
       l.any (fun e => decide (validity now fb e = Validity.IncorrectOrExpired))) := by
  induction l generalizing s with
  | nil => simp [calcLoop]
  | cons e rest ih =>
      cases hv : validity now fb e with
      | Pending =>
          simp only [calcLoop, hv, List.any_cons, List.countP_cons, hv, ih,
            decide_eq_true_eq]
          simp [hv]
      | Correct =>
          simp only [calcLoop, hv, List.any_cons, List.countP_cons, ih]
          by_cases ha : rest.any
              (fun e => decide (validity now fb e = Validity.IncorrectOrExpired)) = true
          · simp [ha]
          · simp only [Bool.not_eq_true] at ha
            simp [ha]
            omega
      | IncorrectOrExpired =>
          simp [calcLoop, hv]

/-- C9: `calculate_score(fb)` walks the elements in order, skipping
`Pending` ones and adding one to the score per `Correct` one; if any
element is `IncorrectOrExpired` the walk ends with score zero and the
element list cleared, and otherwise the elements are kept unchanged. -/
theorem calculate_score_characterization (now : Nat) (fb : Framebuffer)
    (st : PredictionEngine) :
    calculateScore now fb st =
      if st.elements.any (fun e => decide (validity now fb e = Validity.IncorrectOrExpired)) then
        { st with score := 0, elements := [] }
      else
        { st with score := st.score +
            (st.elements.countP (fun e => decide (validity now fb e = Validity.Correct)) : Int) } := by
  simp only [calculateScore, calcLoop_characterization]
  by_cases h : st.elements.any
      (fun e => decide (validity now fb e = Validity.IncorrectOrExpired)) = true
  · simp [h]
  · simp [h]

/-! ### Claim C7: cull -/

/-- The RTT update of the code `(1 − β)· with β = 1/4, (1 − α)· with α = 1/8`
coincides with the `3/4, 7/8` formulas of the spec. -/
theorem rttUpdate_eq_estimatorStep (acc : Bool × ℚ × ℚ) (R : ℚ) :
    rttUpdate acc R = estimatorStep acc R := by
  obtain ⟨hit, s, v⟩ := acc
  cases hit with
  | false => rfl
  | true =>
      simp only [rttUpdate, estimatorStep, Prod.mk.injEq, true_and]
      constructor
      · ring
      · ring

/-- The cull loop keeps exactly the `Pending` elements and feeds
`R = now − prediction_time` through the Jacobson estimator for each
`Correct` element in list order. -/
theorem cullLoop_characterization (now : Nat) (fb : Framebuffer)
    (l : List PredItem) (acc : Bool × ℚ × ℚ) :
    cullLoop now fb l acc =
      (l.filter (fun e => decide (validity now fb e = Validity.Pending)),
       ((l.filter (fun e => decide (validity now fb e = Validity.Correct))).map
          (fun e => ((usub now (predictionTimeOf e) : Nat) : ℚ))).foldl
         estimatorStep acc) := by
  induction l generalizing acc with
  | nil => simp [cullLoop]
  | cons e rest ih =>
      cases hv : validity now fb e with
      | Pending =>
          simp [cullLoop, hv, ih, List.filter_cons]
      | Correct =>
          simp [cullLoop, hv, ih, List.filter_cons, rttUpdate_eq_estimatorStep]
      | IncorrectOrExpired =>
          simp [cullLoop, hv, ih, List.filter_cons]

/-- C7: `cull(fb)` removes every element whose validity is not `Pending`
(keeping exactly the `Pending` ones, in order), runs the Jacobson
estimator — first sample `SRTT = R`, `RTTVAR = R/2`; later samples
`RTTVAR = (3/4)·RTTVAR + (1/4)·|SRTT − R|` then `SRTT = (7/8)·SRTT + (1/8)·R` —
over `R = now − prediction_time` of each `Correct` element, and finally sets
`flagging` to true when the resulting `SRTT > 150` and to false when it is
below 100 (hysteresis: otherwise unchanged). -/
theorem cull_characterization (now : Nat) (fb : Framebuffer)
    (st : PredictionEngine) :
    (cull now fb st).elements
      = st.elements.filter (fun e => decide (validity now fb e = Validity.Pending)) ∧
    ((cull now fb st).RTT_hit, (cull now fb st).SRTT, (cull now fb st).RTTVAR)
      = ((st.elements.filter (fun e => decide (validity now fb e = Validity.Correct))).map
          (fun e => ((usub now (predictionTimeOf e) : Nat) : ℚ))).foldl
          estimatorStep (st.RTT_hit, st.SRTT, st.RTTVAR) ∧
    (cull now fb st).flagging
      = (if 150 < (cull now fb st).SRTT then true
         else if (cull now fb st).SRTT < 100 then false
         else st.flagging) ∧
    (cull now fb st).score = st.score := by
  unfold cull
  rw [cullLoop_characterization]
  exact ⟨rfl, rfl, rfl, rfl⟩

/-! ### Claim C6: wait_time -/

/-- The running-minimum fold never exceeds its initial value. -/
theorem foldMin_le_init (l : List Nat) (a : Nat) :
    l.foldl (fun acc e => if e < acc then e else acc) a ≤ a := by
  induction l generalizing a with
  | nil => simp
  | cons e rest ih =>
      simp only [List.foldl_cons]
      refine le_trans (ih _) ?_
      split <;> omega

/-- The running-minimum fold is bounded by every list member. -/
theorem foldMin_le_mem (l : List Nat) (a x : Nat) (hx : x ∈ l) :
    l.foldl (fun acc e => if e < acc then e else acc) a ≤ x := by
  induction l generalizing a with
  | nil => cases hx
  | cons e rest ih =>
      simp only [List.foldl_cons]
      rcases List.mem_cons.mp hx with rfl | hx2
      · refine le_trans (foldMin_le_init _ _) ?_
        split <;> omega
      · exact ih _ hx2

/-- C6 (amended): provided `now` and every element expiration are below
2^31 (so the `uint64_t → int` conversion does not wrap), `wait_time()`
returns the minimum expiration over both engines minus `now`, returns
`INT_MAX` when that difference is negative, and returns `INT_MAX` when both
element lists are empty. -/
theorem wait_time_characterization (now : Nat) (om : OverlayManager)
    (hnow : now < 2147483648)
    (hne : ∀ e ∈ om.notifications.elements, e.expiration_time < 2147483648)
    (hpe : ∀ e ∈ om.predictions.elements, expirationOf e < 2147483648) :
    (om.notifications.elements = [] → om.predictions.elements = [] →
       waitTime now om = INT_MAX) ∧
    ((om.notifications.elements ≠ [] ∨ om.predictions.elements ≠ []) →
       (now ≤ minExpiry om → waitTime now om = (minExpiry om : Int) - now) ∧
       (minExpiry om < now → waitTime now om = INT_MAX)) := by
  constructor
  · intro h1 h2
    have hm : minExpiry om = U64 - 1 := by
      simp [minExpiry, h1, h2]
    have hu : usub (U64 - 1) now = U64 - 1 - now := by
      simp only [usub, U64]
      omega
    have hmod : (U64 - 1 - now) % 4294967296 = 4294967295 - now := by
      simp only [U64]
      omega
    have hneg : toInt32 (U64 - 1 - now) < 0 := by
      unfold toInt32
      rw [hmod, if_neg (by omega)]
      omega
    simp only [waitTime, hm, hu]
    rw [if_pos hneg]
  · intro hnonempty
    have hall : ∀ x ∈ om.notifications.elements.map (fun e => e.expiration_time)
        ++ om.predictions.elements.map (fun e => expirationOf e), x < 2147483648 := by
      intro x hx
      rcases List.mem_append.mp hx with hx1 | hx1
      · obtain ⟨e, he, rfl⟩ := List.mem_map.mp hx1
        exact hne e he
      · obtain ⟨e, he, rfl⟩ := List.mem_map.mp hx1
        exact hpe e he
    have hx : ∃ x, x ∈ om.notifications.elements.map (fun e => e.expiration_time)
        ++ om.predictions.elements.map (fun e => expirationOf e) := by
      rcases hnonempty with h | h
      · obtain ⟨e, he⟩ := List.exists_mem_of_ne_nil _ h
        exact ⟨_, List.mem_append_left _ (List.mem_map_of_mem _ he)⟩
      · obtain ⟨e, he⟩ := List.exists_mem_of_ne_nil _ h
        exact ⟨_, List.mem_append_right _ (List.mem_map_of_mem _ he)⟩
    obtain ⟨x, hxmem⟩ := hx
    have hmlt : minExpiry om < 2147483648 :=
      lt_of_le_of_lt (foldMin_le_mem _ _ _ hxmem) (hall x hxmem)
    constructor
    · intro hle
      have hu : usub (minExpiry om) now = minExpiry om - now := by
        simp only [usub, U64]
        omega
      have hmod : (minExpiry om - now) % 4294967296 = minExpiry om - now :=
        Nat.mod_eq_of_lt (by omega)
      have htoi : toInt32 (minExpiry om - now) = ((minExpiry om - now : Nat) : Int) := by
        unfold toInt32
        rw [hmod, if_pos (by omega)]
      simp only [waitTime, hu, htoi]
      rw [if_neg (by omega)]
      omega
    · intro hlt
      have hu : usub (minExpiry om) now = minExpiry om + (U64 - now) := by
        simp only [usub, U64]
        omega
      have hmod : (minExpiry om + (U64 - now)) % 4294967296
          = 4294967296 - (now - minExpiry om) := by
        simp only [U64]
        omega
      have hneg : toInt32 (minExpiry om + (U64 - now)) < 0 := by
        unfold toInt32
        rw [hmod, if_neg (by omega)]
        omega
      simp only [waitTime, hu]
      rw [if_pos hneg]

/-- A manager with both engines empty. -/
def om0 : OverlayManager := { predictions := engine0, notifications := notif0 }

/-- A manager whose notification engine holds one element expiring at 100 ms. -/
def om1 : OverlayManager :=
  { predictions := engine0
    notifications := { notif0 with elements :=
      [{ expiration_time := 100, row := 0, col := 0,
         replacement := cellDefault 0, flag := false }] } }

/-- Witness for the C6 theorem at a concrete input: one element expiring at
100 ms, queried at 50 ms, gives a 50 ms wait. -/
theorem wait_time_witness : waitTime 50 om1 = 50 := by
  have h := (wait_time_characterization 50 om1 (by decide) (by decide) (by decide)).2
    (Or.inl (by decide))
  rw [h.1 (by decide)]
  decide

/-- Counterexample to C6 as stated: with both element lists empty but
`now = 2^31 + 5`, the `uint64_t → int` truncation makes `wait_time` return
2147483642 instead of the `INT_MAX` sentinel. -/
theorem wait_time_counterexample :
    om0.notifications.elements = [] ∧ om0.predictions.elements = [] ∧
    waitTime 2147483653 om0 = 2147483642 ∧ (2147483642 : Int) ≠ INT_MAX := by decide

/-! ### Claim C10: prediction_len bounds -/

/-- The Jacobson estimator preserves non-negativity of `SRTT` and `RTTVAR`
over any history of non-negative samples. -/
theorem rttFold_nonneg (samples : List ℚ) (acc : Bool × ℚ × ℚ)
    (hs : 0 ≤ acc.2.1) (hv : 0 ≤ acc.2.2) (hr : ∀ r ∈ samples, 0 ≤ r) :
    0 ≤ (samples.foldl rttUpdate acc).2.1 ∧
    0 ≤ (samples.foldl rttUpdate acc).2.2 := by
  induction samples generalizing acc with
  | nil => exact ⟨hs, hv⟩
  | cons r rest ih =>
      have hr0 : 0 ≤ r := hr r (List.mem_cons_self _ _)
      have hstep : 0 ≤ (rttUpdate acc r).2.1 ∧ 0 ≤ (rttUpdate acc r).2.2 := by
        obtain ⟨hit, s, v⟩ := acc
        cases hit with
        | false =>
            exact ⟨hr0, div_nonneg hr0 (by norm_num)⟩
        | true =>
            refine ⟨add_nonneg (mul_nonneg (by norm_num) hs)
              (mul_nonneg (by norm_num) hr0), ?_⟩
            exact add_nonneg (mul_nonneg (by norm_num) hv)
              (mul_nonneg (by norm_num) (abs_nonneg _))
      simp only [List.foldl_cons]
      exact ih _ hstep.1 hstep.2 (fun q hq => hr q (List.mem_cons_of_mem _ hq))

/-- C10: over any history of non-negative samples fed into the estimator
(started from any non-negative state), `prediction_len()` computes
`round_up(1.25·SRTT + 8·RTTVAR)` clamped to `[20, 2000]` (provided the
unclamped value fits in a `uint64_t`), and its result always lies in
`[20, 2000]`. -/
theorem prediction_len_characterization (st : PredictionEngine)
    (hit0 : Bool) (s0 v0 : ℚ) (samples : List ℚ)
    (hs0 : 0 ≤ s0) (hv0 : 0 ≤ v0) (hr : ∀ r ∈ samples, 0 ≤ r)
    (hst : (st.RTT_hit, st.SRTT, st.RTTVAR) = samples.foldl rttUpdate (hit0, s0, v0)) :
    20 ≤ predictionLen st ∧ predictionLen st ≤ 2000 ∧
    (⌈(1.25 : ℚ) * st.SRTT + 8 * st.RTTVAR⌉ < (U64 : Int) →
      (predictionLen st : Int)
        = min 2000 (max 20 ⌈(1.25 : ℚ) * st.SRTT + 8 * st.RTTVAR⌉)) := by
  have hfold := rttFold_nonneg samples (hit0, s0, v0) hs0 hv0 hr
  have hsrtt : 0 ≤ st.SRTT := by
    have := congrArg (fun p => p.2.1) hst
    simp at this
    rw [this]
    exact hfold.1
  have hvar : 0 ≤ st.RTTVAR := by
    have := congrArg (fun p => p.2.2) hst
    simp at this
    rw [this]
    exact hfold.2
  have hx : 0 ≤ (1.25 : ℚ) * st.SRTT + 8 * st.RTTVAR :=
    add_nonneg (mul_nonneg (by norm_num) hsrtt) (mul_nonneg (by norm_num) hvar)
  have hc0 : 0 ≤ ⌈(1.25 : ℚ) * st.SRTT + 8 * st.RTTVAR⌉ := Int.ceil_nonneg hx
  refine ⟨?_, ?_, ?_⟩
  · simp only [predictionLen]
    split_ifs <;> omega
  · simp only [predictionLen]
    split_ifs <;> omega
  · intro hlt
    have hemod : ⌈(1.25 : ℚ) * st.SRTT + 8 * st.RTTVAR⌉ % (U64 : Int)
        = ⌈(1.25 : ℚ) * st.SRTT + 8 * st.RTTVAR⌉ := Int.emod_eq_of_lt hc0 hlt
    have hcast : ((⌈(1.25 : ℚ) * st.SRTT + 8 * st.RTTVAR⌉.toNat : Nat) : Int)
        = ⌈(1.25 : ℚ) * st.SRTT + 8 * st.RTTVAR⌉ := Int.toNat_of_nonneg hc0
    simp only [predictionLen, hemod]
    split_ifs <;> omega

/-- A prediction engine state reached after feeding the single sample
`R = 10` into a fresh estimator: `SRTT = 10`, `RTTVAR = 5`. -/
def engineRtt : PredictionEngine :=
  { elements := [], score := 0, SRTT := 10, RTTVAR := 5,
    RTT_hit := true, flagging := false }

/-- Witness for the C10 theorem at a concrete input. -/
theorem prediction_len_witness :
    20 ≤ predictionLen engineRtt ∧ predictionLen engineRtt ≤ 2000 := by
  have h := prediction_len_characterization engineRtt false 0 0 [10]
    (by norm_num) (by norm_num) (by norm_num)
    (by simp [engineRtt, rttUpdate]; norm_num)
  exact ⟨h.1, h.2.1⟩

/-! ### Claim C8: new_user_byte -/

/-- C8: `new_user_byte(b, fb)` — with `ccm`/`rest` describing the front of
the element list after the possible initial prepend (when the list is empty,
a fresh `ConditionalCursorMove` anchored at the framebuffer cursor with
expiration `now + prediction_len()` is prepended; otherwise the front is the
existing cursor move, by the engine invariant): if the predicted cursor is
off-screen nothing further happens; if `b` is printable ASCII (0x20–0x7E)
and the predicted cursor is more than 2 columns from the right edge, a
`ConditionalOverlayCell` is appended whose `original_contents` is the
existing cell at the predicted cursor and whose `replacement` is that cell
with contents `[b]` and `flag = flagging`, the predicted cursor advances one
column and the cursor-move expiration is refreshed; otherwise the elements
are cleared and the score zeroed. -/
theorem new_user_byte_characterization (b : Int) (now : Nat) (fb : Framebuffer)
    (st : PredictionEngine) (ccm : CondCursorMove) (rest : List PredItem)
    (h : (st.elements = [] ∧
            ccm = { expiration_time := now + predictionLen st
                    prediction_time := now
                    new_row := fb.ds.cursor_row
                    new_col := fb.ds.cursor_col } ∧ rest = []) ∨
         st.elements = PredItem.cursor ccm :: rest) :
    newUserByte b now fb st =
      if fb.ds.height ≤ ccm.new_row ∨ fb.ds.width ≤ ccm.new_col then
        { st with elements := PredItem.cursor ccm :: rest }
      else if (0x20 ≤ b ∧ b ≤ 0x7E) ∧ ccm.new_col < fb.ds.width - 2 then
        { st with elements :=
            PredItem.cursor { ccm with new_col := ccm.new_col + 1
                                       expiration_time := now + predictionLen st } ::
              rest ++ [PredItem.cell
                { expiration_time := now + predictionLen st
                  prediction_time := now
                  row := ccm.new_row
                  col := ccm.new_col
                  replacement := { getCell fb ccm.new_row ccm.new_col with contents := [b] }
                  flag := st.flagging
                  original_contents := getCell fb ccm.new_row ccm.new_col }] }
      else { st with elements := [], score := 0 } := by
  rcases h with ⟨h1, h2, h3⟩ | h1
  · subst h2
    subst h3
    simp [newUserByte, h1]
  · have hne : st.elements.isEmpty = false := by
      rw [h1]
      rfl
    simp [newUserByte, hne, h1]

/-- Witness for the C8 theorem at a concrete input: typing byte 65 on an
empty engine over a 3×5 framebuffer with the cursor at (1, 1). -/
theorem new_user_byte_witness :
    newUserByte 65 0 fb5 engine0 =
      { engine0 with elements :=
          [PredItem.cursor { expiration_time := 20, prediction_time := 0,
                             new_row := 1, new_col := 2 },
           PredItem.cell { expiration_time := 20, prediction_time := 0,
                           row := 1, col := 1,
                           replacement := { cellDefault 0 with contents := [65] },
                           flag := false,
                           original_contents := cellDefault 0 }] } := by
  have hplen : predictionLen engine0 = 20 := by
    have : ⌈(1.25 : ℚ) * engine0.SRTT + 8 * engine0.RTTVAR⌉ = 0 := by
      norm_num [engine0]
    simp [predictionLen, this]
  have h := new_user_byte_characterization 65 0 fb5 engine0
    { expiration_time := 0 + predictionLen engine0, prediction_time := 0,
      new_row := fb5.ds.cursor_row, new_col := fb5.ds.cursor_col } []
    (Or.inl ⟨rfl, rfl, rfl⟩)
  rw [h]
  rw [hplen]
  decide

/-! ### Claim C1: prediction soundness of OverlayManager::apply -/

/-- C1 (amended): if, after `calculate_score` and `cull` have run, the
prediction score does not exceed 3, and the notification engine holds no
elements, then the framebuffer produced by `OverlayManager::apply(fb)` is
byte-identical to the emulator output `fb`; predictions are painted onto
`fb` only in the `score > 3` branch. -/
theorem om_apply_sound (now : Nat) (om : OverlayManager) (fb : Framebuffer)
    (hn : om.notifications.elements = [])
    (hs : (cull now fb (calculateScore now fb om.predictions)).score ≤ 3) :
    (omApply now om fb).2 = fb := by
  simp only [omApply]
  rw [if_neg (by omega)]
  simp [notifApply, hn]

/-- Witness for the C1 theorem at a concrete input: both engines empty. -/
theorem om_apply_sound_witness : (omApply 0 om0 fb3).2 = fb3 :=
  om_apply_sound 0 om0 fb3 rfl (by decide)

/-- Counterexample to C1 as stated: with the prediction score staying at 0
(never exceeding 3) but one notification element present, `apply` still
repaints the top row with the banner background, so the framebuffer is not
byte-identical to the emulator output. -/
theorem om_apply_counterexample :
    (cull 0 fb3 (calculateScore 0 fb3 om1.predictions)).score ≤ 3 ∧
    (omApply 0 om1 fb3).2 ≠ fb3 := by decide

end MoshOverlay
